import Mathlib

/-!
Shallow embedding of the born_ed_yew recorder/teleprompter app (src/src/app.rs)
and proofs about it.

The app is a single Yew component wiring three subsystems:
- a MediaRecorder-based capture state machine (Idle/Recording/Paused) that
  collects binary fragments ("chunks") and merges them into a playback blob,
- a live words-per-minute estimator driven by SpeechRecognition result events,
- a teleprompter scroll controller driven by a fixed 50 ms interval.

Machine/browser values are embedded as: binary blobs as byte lists (`List Nat`),
f64 arithmetic as exact rationals (`ℚ`), `as i32` / `as u32` casts as explicit
truncations, fallible JS calls as `Except` values supplied by the environment.
-/

namespace BornEd

/-- The recorder status enum, from `enum RecordingStatus` in app.rs. -/
inductive RecordingStatus
  | Idle
  | Recording
  | Paused
deriving DecidableEq, Repr

/-- A binary fragment (a `web_sys::Blob`), embedded as its byte sequence. -/
abbrev Blob := List Nat

/-! ### Control enablement (the `disabled` attributes on the three buttons
and the teleprompter toggle, app.rs lines 306 and 331-336). -/

/-- app.rs: `disabled={!matches!(*status, RecordingStatus::Idle)}` on the
Record button. -/
def recordDisabled (s : RecordingStatus) : Bool :=
  !(match s with
    | RecordingStatus.Idle => true
    | _ => false)

/-- app.rs: `disabled={!matches!(*status, RecordingStatus::Recording)}` on the
Pause button. -/
def pauseDisabled (s : RecordingStatus) : Bool :=
  !(match s with
    | RecordingStatus.Recording => true
    | _ => false)

/-- app.rs: `disabled={matches!(*status, RecordingStatus::Recording)}` on the
Stop button. -/
def stopDisabled (s : RecordingStatus) : Bool :=
  match s with
  | RecordingStatus.Recording => true
  | _ => false

/-- The teleprompter toggle button in app.rs carries no `disabled` attribute,
so it is never disabled. -/
def toggleDisabled (_s : RecordingStatus) : Bool := false

/-! ### Fragment merge (the body of `onclick_stop`, app.rs lines 274-284). -/

/-- The loop `for blob in chunks.iter() { arr.push(blob); }` building the
`js_sys::Array` of parts, in buffer order. -/
def buildBlobArray (chunks : List Blob) : List Blob :=
  chunks.foldl (fun arr b => arr ++ [b]) []

/-- Models the external browser constructor
`Blob::new_with_blob_sequence(&arr)`: per the web platform it concatenates the
parts of the sequence in order into one blob (an empty sequence yields the
empty blob, not an error). -/
def blobOfSequence (parts : List Blob) : Blob :=
  parts.flatten

/-- The merge step of `onclick_stop`: build the array from the chunk buffer in
order, then construct one blob from it. -/
def mergeAll (chunks : List Blob) : Blob :=
  blobOfSequence (buildBlobArray chunks)

/-- Models the external `Url::create_object_url_with_blob`: the derived handle,
identified with the blob content it dereferences to. -/
def createObjectUrl (b : Blob) : Blob := b

/-! ### WPM estimator (the `on_result` closure, app.rs lines 110 and 138-155).
Times are in milliseconds (`js_sys::Date::now`), embedded as rationals. -/

/-- app.rs line 110: `let wpm = use_state(|| 120u32);` — the initial WPM. -/
def defaultWpm : Nat := 120

/-- The transcript-building loop of `on_result`: for each result, append its
first alternative's transcript followed by a space. The event is embedded as
the list of those per-result transcripts. -/
def transcriptOfEvent (results : List String) : String :=
  results.foldl (fun t r => t ++ r ++ " ") ""

/-- Character-level scan behind `wordCount`: counts the maximal nonempty runs
of non-whitespace characters, carrying a flag for "currently inside a word". -/
def wordCountChars : List Char → Bool → Nat
  | [], _ => 0
  | c :: cs, inWord =>
      if c.isWhitespace then wordCountChars cs false
      else (if inWord then 0 else 1) + wordCountChars cs true

/-- Rust `transcript.split_whitespace().count()`: the number of
whitespace-separated words of the string. -/
def wordCount (t : String) : Nat :=
  wordCountChars t.data false

/-- Rust `f64::round` on a non-negative value (round half away from zero),
embedded on exact rationals. The estimator only rounds non-negative values. -/
def roundF64 (q : ℚ) : ℤ :=
  ⌊q + 1 / 2⌋

/-- The body of the `on_result` closure: rebuild the cumulative transcript,
count words, compute `elapsed = (now - start_time) / 1000.0` seconds, and set
`wpm` to `round(words / elapsed * 60) as u32` only when `elapsed > 1.0`
(otherwise the previous estimate is kept). -/
def on_result (start_time now : ℚ) (prevWpm : Nat) (results : List String) : Nat :=
  let transcript := transcriptOfEvent results
  let words : ℚ := wordCount transcript
  let elapsed := (now - start_time) / 1000
  if 1 < elapsed then (roundF64 (words / elapsed * 60)).toNat else prevWpm

/-! ### Teleprompter tick arithmetic (the interval closure in
`use_effect_with`, app.rs lines 203-217). -/

/-- app.rs: `let words_per_ms = *wpm_val as f64 / 60_000.0;`. -/
def words_per_ms (wpm : Nat) : ℚ :=
  (wpm : ℚ) / 60000

/-- Rust `as i32` on an f64: truncation toward zero, embedded on rationals. -/
def truncToInt (q : ℚ) : ℤ :=
  if 0 ≤ q then ⌊q⌋ else ⌈q⌉

/-- The closure accumulator after `n` ticks: starts at `0.0`, and each tick
runs `acc += words_per_ms * 50.0`. -/
def tickAcc (wpm : Nat) : Nat → ℚ
  | 0 => 0
  | n + 1 => tickAcc wpm n + words_per_ms wpm * 50

/-- The argument passed to `set_scroll_top` after `n` ticks:
`(acc * 20.0) as i32`. -/
def appliedScrollTop (wpm n : Nat) : ℤ :=
  truncToInt (tickAcc wpm n * 20)

/-! ### Prompter effect machine (app.rs lines 199-229): `use_effect_with` with
dependency tuple `(*is_prompting, *wpm, (*script).clone())`. Yew re-runs the
effect exactly when the dependency tuple changes; the effect builds a fresh
interval with `acc = 0.0` when prompting, and the cleanup drops the previous
interval. The div retains its last `scroll_top` between intervals. -/

/-- The dependency tuple of the prompter effect. -/
structure PromDeps where
  active : Bool
  wpm : Nat
  script : String
deriving DecidableEq, Repr

/-- The state captured by a running interval's closure: the WPM fixed when the
effect ran, and the mutable accumulator. -/
structure TickSt where
  wpmCaptured : Nat
  acc : ℚ
deriving DecidableEq, Repr

/-- Prompter-side component state: current dependency tuple, the optional
running interval, and the teleprompter div's `scroll_top`. -/
structure PromSt where
  deps : PromDeps
  interval : Option TickSt
  scrollTop : ℤ
deriving DecidableEq, Repr

/-- Initial prompter state: `is_prompting = false`, `wpm = 120`, empty script,
no interval, `scroll_top = 0`. -/
def promInit : PromSt :=
  ⟨⟨false, defaultWpm, ""⟩, none, 0⟩

/-- Events touching the prompter: a render with a (possibly) new dependency
tuple, or a 50 ms interval tick. -/
inductive PromEv
  | setDeps (d : PromDeps)
  | tick
deriving DecidableEq, Repr

/-- The effect body (app.rs lines 201-220): when `is_prompting`, capture the
current WPM and start a fresh interval with `acc = 0.0`; otherwise no interval. -/
def runPromEffect (d : PromDeps) : Option TickSt :=
  if d.active then some ⟨d.wpm, 0⟩ else none

/-- One prompter step. Yew semantics: `setDeps` with an unchanged tuple does
not re-run the effect; a changed tuple first runs the cleanup (dropping the old
interval) and then the effect body. A `tick` fires only while an interval is
live: `acc += words_per_ms * 50.0; set_scroll_top((acc * 20.0) as i32)`. -/
def promStep (s : PromSt) : PromEv → PromSt
  | PromEv.setDeps d =>
      if d = s.deps then s
      else { deps := d, interval := runPromEffect d, scrollTop := s.scrollTop }
  | PromEv.tick =>
      match s.interval with
      | none => s
      | some t =>
          let acc := t.acc + words_per_ms t.wpmCaptured * 50
          { s with interval := some ⟨t.wpmCaptured, acc⟩,
                   scrollTop := truncToInt (acc * 20) }

/-- Run a sequence of prompter events. -/
def promRun (s : PromSt) (evs : List PromEv) : PromSt :=
  evs.foldl promStep s

/-! ### Capture session machine (init_recorder, the `ondataavailable` and
`onstop` closures, and the three button callbacks, app.rs lines 21-85 and
244-286).

The browser MediaRecorder is external; its state is embedded per the
MediaStream Recording contract: `start()` moves it to recording, `pause()` to
paused, `stop()` on an active recorder queues a final `dataavailable` and then
a `stop` event (the `stopping` state below) and is a no-op when inactive;
`dataavailable` events are only delivered while the recorder is active
(recording, paused, or stopping). User clicks are only possible on enabled
buttons, so each click event is guarded by the button's `disabled` predicate. -/

/-- The external MediaRecorder's state: `stopping` is the window after a
`stop()` request and before its queued `stop` event has been handled. -/
inductive DevState
  | inactive
  | recording
  | paused
  | stopping
deriving DecidableEq, Repr

/-- Component state touched by the capture session: `recorder` is whether
`recorder_handle` holds `Some`, plus `status`, the chunk buffer, the playback
URL, and the external recorder's state. -/
structure SessSt where
  recorder : Bool
  status : RecordingStatus
  chunks : List Blob
  playbackUrl : Option Blob
  dev : DevState
deriving DecidableEq, Repr

/-- Initial component state (app.rs lines 175-178): no recorder handle, status
`Idle`, empty chunk buffer, no playback URL; the device is inactive. -/
def sessInit : SessSt :=
  ⟨false, RecordingStatus.Idle, [], none, DevState.inactive⟩

/-- Session events: completion of `init_recorder` (success or failure), the
three button clicks, a `dataavailable` event carrying a blob, and the
recorder's `stop` event. -/
inductive SessEv
  | initOk
  | initErr
  | clickStart
  | clickPause
  | clickStop
  | dataAvail (b : Blob)
  | stopFired
deriving DecidableEq, Repr

/-- One session step.

- `initOk` (app.rs lines 40-79, run once at mount): installs the recorder
  handle and sets status `Idle`; modelled as a no-op if already installed.
- `initErr` (lines 81-84): only logs `getUserMedia error`; no state change.
- `clickStart` (lines 244-253), only possible while the Record button is
  enabled: if a recorder handle exists, `rec.start()` (device starts
  recording) and status becomes `Recording`.
- `clickPause` (lines 254-263), only while the Pause button is enabled: if a
  handle exists, `rec.pause()` and status becomes `Paused`.
- `clickStop` (lines 264-286), only while the Stop button is enabled: if a
  handle exists, `rec.stop()` (a no-op on an inactive device, else the device
  begins stopping); then, if the status seen at the call site is `Idle`, the
  chunks are merged and the playback URL is set.
- `dataAvail b` (the `ondataavailable` closure, lines 56-63): only delivered
  while the device is active; the closure appends the blob unconditionally.
- `stopFired` (the `onstop` closure, lines 71-73): the device's `stop` event;
  sets status `Idle` and the device becomes inactive. -/
def sessStep (s : SessSt) : SessEv → SessSt
  | SessEv.initOk =>
      if s.recorder then s
      else { s with recorder := true, status := RecordingStatus.Idle }
  | SessEv.initErr => s
  | SessEv.clickStart =>
      if recordDisabled s.status then s
      else if s.recorder then
        { s with dev := DevState.recording, status := RecordingStatus.Recording }
      else s
  | SessEv.clickPause =>
      if pauseDisabled s.status then s
      else if s.recorder then
        { s with dev := DevState.paused, status := RecordingStatus.Paused }
      else s
  | SessEv.clickStop =>
      if stopDisabled s.status then s
      else
        let s1 :=
          if s.recorder ∧ s.dev ≠ DevState.inactive then
            { s with dev := DevState.stopping }
          else s
        if s1.status = RecordingStatus.Idle then
          { s1 with playbackUrl := some (createObjectUrl (mergeAll s1.chunks)) }
        else s1
  | SessEv.dataAvail b =>
      if s.dev = DevState.inactive then s
      else { s with chunks := s.chunks ++ [b] }
  | SessEv.stopFired =>
      if s.dev = DevState.stopping then
        { s with status := RecordingStatus.Idle, dev := DevState.inactive }
      else s

/-- Run a sequence of session events from a state. -/
def sessRun (s : SessSt) (evs : List SessEv) : SessSt :=
  evs.foldl sessStep s

/-- Control-state invariant of the session machine: status `Idle` means the
device is inactive, an active device implies a recorder handle exists, status
`Recording` means the device is recording, and status `Paused` means the
device is paused or stopping. -/
def sessInv (s : SessSt) : Prop :=
  (s.status = RecordingStatus.Idle → s.dev = DevState.inactive) ∧
  (s.dev ≠ DevState.inactive → s.recorder = true) ∧
  (s.status = RecordingStatus.Recording → s.dev = DevState.recording) ∧
  (s.status = RecordingStatus.Paused →
    s.dev = DevState.paused ∨ s.dev = DevState.stopping)

/-! ### Fallible handler calls (for the error-propagation policy).

The click handlers call `rec.start().unwrap()`, `rec.pause().unwrap()`,
`rec.stop().unwrap()` and `Url::create_object_url_with_blob(..).unwrap()`:
a JS error returned by the environment makes `unwrap` panic. Blob
construction is instead guarded by `if let Ok(final_blob)`. Each handler is
embedded as a function of the environment's result that either panics or
returns the new state. -/

/-- An opaque JS exception value. -/
inductive JsErr
  | exn
deriving DecidableEq, Repr

/-- A Rust panic escaping a handler (from `.unwrap()` on an `Err`). -/
inductive Panic
  | panicked
deriving DecidableEq, Repr

/-- `onclick_start` with the environment's result for `rec.start()`:
`rec.start().unwrap()` panics on `Err`, else status becomes `Recording`.
Without a recorder handle the handler is a no-op. -/
def onclick_start_run (s : SessSt) (startRes : Except JsErr Unit) :
    Except Panic SessSt :=
  if s.recorder then
    match startRes with
    | Except.error _ => Except.error Panic.panicked
    | Except.ok _ =>
        Except.ok { s with dev := DevState.recording,
                           status := RecordingStatus.Recording }
  else Except.ok s

/-- `onclick_pause` with the environment's result for `rec.pause()`. -/
def onclick_pause_run (s : SessSt) (pauseRes : Except JsErr Unit) :
    Except Panic SessSt :=
  if s.recorder then
    match pauseRes with
    | Except.error _ => Except.error Panic.panicked
    | Except.ok _ =>
        Except.ok { s with dev := DevState.paused,
                           status := RecordingStatus.Paused }
  else Except.ok s

/-- `onclick_stop` with the environment's results for `rec.stop()`, for blob
construction, and for `Url::create_object_url_with_blob`. `rec.stop().unwrap()`
panics on `Err`; a blob-construction `Err` skips the merge (`if let Ok`); a
URL-creation `Err` panics (`.unwrap()`). -/
def onclick_stop_run (s : SessSt) (stopRes : Except JsErr Unit)
    (blobRes : Except JsErr Blob) (urlRes : Except JsErr Blob) :
    Except Panic SessSt :=
  match (if s.recorder then stopRes else Except.ok ()) with
  | Except.error _ => Except.error Panic.panicked
  | Except.ok _ =>
      if s.status = RecordingStatus.Idle then
        match blobRes with
        | Except.error _ => Except.ok s
        | Except.ok _ =>
            match urlRes with
            | Except.error _ => Except.error Panic.panicked
            | Except.ok url => Except.ok { s with playbackUrl := some url }
      else Except.ok s

/-- The `Err` branch of `init_recorder` (app.rs lines 81-84): the acquisition
error is only logged; no state change and no panic. -/
def init_recorder_err (s : SessSt) (_e : JsErr) : Except Panic SessSt :=
  Except.ok s

/-! ## Helper lemmas -/

theorem buildBlobArray_eq (chunks : List Blob) : buildBlobArray chunks = chunks := by
  have h : ∀ (l acc : List Blob), l.foldl (fun arr b => arr ++ [b]) acc = acc ++ l := by
    intro l
    induction l with
    | nil => intro acc; simp [List.foldl]
    | cons x xs ih => intro acc; simp [List.foldl, ih]
  simpa using h chunks []

theorem sessInv_init : sessInv sessInit := by
  refine ⟨fun _ => rfl, fun h => absurd rfl h, fun h => ?_, fun h => ?_⟩ <;>
    simp [sessInit] at h

theorem sessInv_step (s : SessSt) (e : SessEv) (h : sessInv s) :
    sessInv (sessStep s e) := by
  rcases s with ⟨rec, st, ch, url, dev⟩
  cases e <;> cases rec <;> cases st <;> cases dev <;>
    simp_all [sessStep, sessInv, recordDisabled, pauseDisabled, stopDisabled]

theorem sessInv_run (evs : List SessEv) : sessInv (sessRun sessInit evs) := by
  have h : ∀ (l : List SessEv) (s : SessSt), sessInv s → sessInv (sessRun s l) := by
    intro l
    induction l with
    | nil => intro s hs; exact hs
    | cons e l ih =>
        intro s hs
        exact ih (sessStep s e) (sessInv_step s e hs)
  exact h evs sessInit sessInv_init

/-- States reachable after a stream-acquisition failure: no recorder handle,
status `Idle`, inactive device, empty chunk buffer, and a playback URL that is
either unset or the empty artifact. -/
def postInitErr (s : SessSt) : Prop :=
  s.recorder = false ∧ s.status = RecordingStatus.Idle ∧
  s.dev = DevState.inactive ∧ s.chunks = [] ∧
  (s.playbackUrl = none ∨ s.playbackUrl = some [])

theorem postInitErr_step (s : SessSt) (e : SessEv) (he : e ≠ SessEv.initOk)
    (h : postInitErr s) : postInitErr (sessStep s e) := by
  rcases s with ⟨rec, st, ch, url, dev⟩
  obtain ⟨h1, h2, h3, h4, h5⟩ := h
  simp only at h1 h2 h3 h4
  subst h1; subst h2; subst h3; subst h4
  cases e <;>
    simp_all [sessStep, postInitErr, recordDisabled, pauseDisabled,
      stopDisabled, mergeAll, buildBlobArray, blobOfSequence, createObjectUrl]

theorem postInitErr_run (evs : List SessEv) (h : SessEv.initOk ∉ evs) :
    postInitErr (sessRun sessInit (SessEv.initErr :: evs)) := by
  have hstep : ∀ (l : List SessEv) (s : SessSt), SessEv.initOk ∉ l →
      postInitErr s → postInitErr (sessRun s l) := by
    intro l
    induction l with
    | nil => intro s _ hs; exact hs
    | cons e l ih =>
        intro s hl hs
        have he : e ≠ SessEv.initOk := fun heq => hl (heq ▸ List.mem_cons_self e l)
        have hl2 : SessEv.initOk ∉ l := fun hm => hl (List.mem_cons_of_mem e hm)
        exact ih (sessStep s e) hl2 (postInitErr_step s e he hs)
  have hinit : postInitErr sessInit := by
    refine ⟨rfl, rfl, rfl, rfl, Or.inl rfl⟩
  simpa [sessRun, sessStep] using hstep evs sessInit h hinit

/-! ## Claims -/

/-- C9: for every recorder status, the Record button is enabled iff the status
is `Idle`, the Pause button is enabled iff the status is `Recording`, the Stop
button is disabled iff the status is `Recording`, and the teleprompter toggle
is always enabled. -/
theorem c9_control_enablement (s : RecordingStatus) :
    (recordDisabled s = false ↔ s = RecordingStatus.Idle) ∧
    (pauseDisabled s = false ↔ s = RecordingStatus.Recording) ∧
    (stopDisabled s = true ↔ s = RecordingStatus.Recording) ∧
    toggleDisabled s = false := by
  cases s <;> simp [recordDisabled, pauseDisabled, stopDisabled, toggleDisabled]

/-- C9 witness: the enablement predicates evaluated at concrete statuses. -/
theorem c9_control_enablement_witness :
    recordDisabled RecordingStatus.Idle = false ∧
    pauseDisabled RecordingStatus.Recording = false ∧
    stopDisabled RecordingStatus.Recording = true ∧
    toggleDisabled RecordingStatus.Paused = false :=
  ⟨(c9_control_enablement RecordingStatus.Idle).1.mpr rfl,
   (c9_control_enablement RecordingStatus.Recording).2.1.mpr rfl,
   (c9_control_enablement RecordingStatus.Recording).2.2.1.mpr rfl,
   (c9_control_enablement RecordingStatus.Paused).2.2.2⟩

/-- C5: the merge step concatenates the buffered fragments in the order they
were appended (no reordering, no drops) into one binary object whose size is
the sum of the fragment sizes, and the playback handle dereferences to exactly
that object. -/
theorem c5_merge_concat (chunks : List Blob) :
    mergeAll chunks = chunks.flatten ∧
    (mergeAll chunks).length = (chunks.map List.length).sum ∧
    createObjectUrl (mergeAll chunks) = chunks.flatten := by
  have h : mergeAll chunks = chunks.flatten := by
    rw [mergeAll, buildBlobArray_eq, blobOfSequence]
  refine ⟨h, ?_, h⟩
  rw [h, List.length_flatten]

/-- C5 witness: three fragments of sizes 10, 20 and 15 bytes merge, in order,
into a 45-byte artifact. -/
theorem c5_merge_concat_witness :
    (mergeAll [List.replicate 10 0, List.replicate 20 1, List.replicate 15 2]).length = 45 ∧
    mergeAll [List.replicate 10 0, List.replicate 20 1, List.replicate 15 2]
      = List.replicate 10 0 ++ List.replicate 20 1 ++ List.replicate 15 2 := by
  have h := c5_merge_concat [List.replicate 10 0, List.replicate 20 1, List.replicate 15 2]
  refine ⟨?_, ?_⟩
  · rw [h.2.1]; decide
  · rw [h.1]; decide

/-- C2: in every execution of the session machine, a `dataavailable` event
that actually appends a fragment to the chunk buffer arrives while the status
is `Recording` or `Paused`; no fragment is ever appended while the status is
`Idle`. -/
theorem c2_no_append_while_idle (evs : List SessEv) (b : Blob)
    (h : (sessStep (sessRun sessInit evs) (SessEv.dataAvail b)).chunks
          ≠ (sessRun sessInit evs).chunks) :
    (sessRun sessInit evs).status = RecordingStatus.Recording ∨
    (sessRun sessInit evs).status = RecordingStatus.Paused := by
  have hinv := sessInv_run evs
  set s := sessRun sessInit evs with hs
  have hdev : s.dev ≠ DevState.inactive := by
    intro hd
    apply h
    simp [sessStep, hd]
  cases hst : s.status with
  | Idle => exact absurd (hinv.1 hst) hdev
  | Recording => exact Or.inl rfl
  | Paused => exact Or.inr rfl

/-- C2 witness: after init and a Record click, a data event appends and the
status is `Recording`. -/
theorem c2_no_append_while_idle_witness :
    (sessStep (sessRun sessInit [SessEv.initOk, SessEv.clickStart])
        (SessEv.dataAvail [1])).chunks
      ≠ (sessRun sessInit [SessEv.initOk, SessEv.clickStart]).chunks ∧
    ((sessRun sessInit [SessEv.initOk, SessEv.clickStart]).status
        = RecordingStatus.Recording ∨
     (sessRun sessInit [SessEv.initOk, SessEv.clickStart]).status
        = RecordingStatus.Paused) :=
  ⟨by decide, c2_no_append_while_idle [SessEv.initOk, SessEv.clickStart] [1] (by decide)⟩

/-- C1: the code violates the claim. `onclick_stop` merges at the click site,
gated on the status observed there, not on the Idle notification: in the run
init → Record → data → Pause → Stop click → recorder stop event, the session
has ended (status `Idle`) yet no playback artifact exists — the Idle
notification triggered no merge; only a second Stop click, seeing status
`Idle` at the call site, creates the artifact. -/
theorem c1_merge_not_gated_on_idle :
    (sessRun sessInit [SessEv.initOk, SessEv.clickStart, SessEv.dataAvail [7],
        SessEv.clickPause, SessEv.clickStop, SessEv.stopFired]).status
      = RecordingStatus.Idle ∧
    (sessRun sessInit [SessEv.initOk, SessEv.clickStart, SessEv.dataAvail [7],
        SessEv.clickPause, SessEv.clickStop, SessEv.stopFired]).playbackUrl
      = none ∧
    (sessRun sessInit [SessEv.initOk, SessEv.clickStart, SessEv.dataAvail [7],
        SessEv.clickPause, SessEv.clickStop, SessEv.stopFired,
        SessEv.clickStop]).playbackUrl
      = some [7] := by
  refine ⟨by decide, by decide, by decide⟩

/-- C10 counterexample: the claim says no playback URL is ever produced after
acquisition failure, but after `initErr` a Stop click (the Stop button is
enabled while `Idle`) merges the empty buffer and sets the playback URL to the
empty artifact. -/
theorem c10_counterexample :
    (sessRun sessInit [SessEv.initErr, SessEv.clickStop]).playbackUrl ≠ none ∧
    (sessRun sessInit [SessEv.initErr, SessEv.clickStop]).playbackUrl = some [] :=
  ⟨by decide, by decide⟩

/-- C10 amended: after a stream-acquisition failure the recorder handle stays
`None`, the status stays `Idle` and the chunk buffer stays empty for the rest
of the session, and Start and Pause clicks are no-ops; but the Stop handler is
not a no-op: since the status is `Idle`, it merges the empty buffer, so the
playback URL is either still unset or set to the empty artifact. -/
theorem c10_after_init_err (evs : List SessEv) (h : SessEv.initOk ∉ evs) :
    (sessRun sessInit (SessEv.initErr :: evs)).recorder = false ∧
    (sessRun sessInit (SessEv.initErr :: evs)).status = RecordingStatus.Idle ∧
    (sessRun sessInit (SessEv.initErr :: evs)).chunks = [] ∧
    ((sessRun sessInit (SessEv.initErr :: evs)).playbackUrl = none ∨
     (sessRun sessInit (SessEv.initErr :: evs)).playbackUrl = some []) := by
  obtain ⟨h1, h2, _, h4, h5⟩ := postInitErr_run evs h
  exact ⟨h1, h2, h4, h5⟩

/-- C10 witness: the amended claim at the concrete run `initErr` then a Stop
click. -/
theorem c10_after_init_err_witness :
    SessEv.initOk ∉ [SessEv.clickStop] ∧
    ((sessRun sessInit [SessEv.initErr, SessEv.clickStop]).recorder = false ∧
     (sessRun sessInit [SessEv.initErr, SessEv.clickStop]).status = RecordingStatus.Idle ∧
     (sessRun sessInit [SessEv.initErr, SessEv.clickStop]).chunks = [] ∧
     ((sessRun sessInit [SessEv.initErr, SessEv.clickStop]).playbackUrl = none ∨
      (sessRun sessInit [SessEv.initErr, SessEv.clickStop]).playbackUrl = some [])) :=
  ⟨by decide, c10_after_init_err [SessEv.clickStop] (by decide)⟩

/-- C3: on a transcript event, if the elapsed time since session start is at
most 1 second the WPM estimate is unchanged (and the default before any update
is 120); if elapsed exceeds 1 second the estimate is recomputed exactly as
`round(words / elapsed * 60)` where `words` counts the whitespace-separated
words of the cumulative transcript (the rounded value is non-negative, so the
`as u32` cast loses nothing). -/
theorem c3_wpm_update (start_time now : ℚ) (prev : Nat) (results : List String) :
    defaultWpm = 120 ∧
    ((now - start_time) / 1000 ≤ 1 → on_result start_time now prev results = prev) ∧
    (1 < (now - start_time) / 1000 →
      on_result start_time now prev results
        = (roundF64 ((wordCount (transcriptOfEvent results) : ℚ)
            / ((now - start_time) / 1000) * 60)).toNat ∧
      0 ≤ roundF64 ((wordCount (transcriptOfEvent results) : ℚ)
            / ((now - start_time) / 1000) * 60)) := by
  refine ⟨rfl, ?_, ?_⟩
  · intro h
    simp only [on_result]
    rw [if_neg (not_lt.mpr h)]
  · intro h
    have helaps : (0 : ℚ) < (now - start_time) / 1000 := lt_trans one_pos h
    have hq : (0 : ℚ) ≤ (wordCount (transcriptOfEvent results) : ℚ)
        / ((now - start_time) / 1000) * 60 := by
      apply mul_nonneg _ (by norm_num)
      exact div_nonneg (Nat.cast_nonneg _) (le_of_lt helaps)
    refine ⟨?_, ?_⟩
    · simp only [on_result]
      rw [if_pos h]
    · rw [roundF64]
      rw [Int.le_floor]
      push_cast
      linarith

/-- C3 witness: the cumulative transcript "hello world foo" at 2.0 s yields
`round(3 / 2 * 60) = 90`; at 0.5 s the estimate stays at the previous value. -/
theorem c3_wpm_update_witness :
    (1 : ℚ) < (2000 - 0) / 1000 ∧
    on_result 0 2000 120 ["hello world foo"] = 90 ∧
    (500 - 0 : ℚ) / 1000 ≤ 1 ∧
    on_result 0 500 120 ["hello"] = 120 := by
  have h1 : (1 : ℚ) < (2000 - 0) / 1000 := by norm_num
  have h2 : (500 - 0 : ℚ) / 1000 ≤ 1 := by norm_num
  refine ⟨h1, ?_, h2, (c3_wpm_update 0 500 120 ["hello"]).2.1 h2⟩
  have h := ((c3_wpm_update 0 2000 120 ["hello world foo"]).2.2 h1).1
  rw [h]
  have hw : wordCount (transcriptOfEvent ["hello world foo"]) = 3 := by decide
  rw [hw]
  have hfl : roundF64 (((3 : ℕ) : ℚ) / ((2000 - 0) / 1000) * 60) = 90 := by
    rw [roundF64, Int.floor_eq_iff]
    norm_num
  rw [hfl]
  decide

/-- Closed form of the tick accumulator: after `n` ticks it holds exactly
`n * (wpm * 50 / 60000)` accumulated words. -/
theorem tickAcc_closed (w n : Nat) :
    tickAcc w n = (n : ℚ) * ((w : ℚ) * 50 / 60000) := by
  induction n with
  | zero => simp [tickAcc]
  | succ k ih =>
      rw [tickAcc, ih, words_per_ms]
      push_cast
      ring

/-- C4 counterexample: the claim equates the applied scroll offset with
`N * (W * P / 60000) * pixelsPerWord`, but at W = 100, N = 1 the value applied
via `set_scroll_top` is the i32 truncation 1, while the formula gives 5/3. -/
theorem c4_counterexample :
    ¬ ((appliedScrollTop 100 1 : ℚ) = (1 : ℚ) * ((100 : ℚ) * 50 / 60000) * 20) := by
  have happ : appliedScrollTop 100 1 = 1 := by
    rw [appliedScrollTop, tickAcc_closed]
    norm_num [truncToInt]
  rw [happ]
  norm_num

/-- C4 amended: after N ticks at the WPM captured at activation, the f64
accumulator times the pixels-per-word constant equals exactly
`N * (W * 50 / 60000) * 20` — a function of the tick count alone, independent
of wall-clock jitter — and the value applied via `set_scroll_top` is that
quantity truncated toward zero by the `as i32` cast. -/
theorem c4_tick_accumulation (w n : Nat) :
    tickAcc w n * 20 = (n : ℚ) * ((w : ℚ) * 50 / 60000) * 20 ∧
    appliedScrollTop w n = truncToInt ((n : ℚ) * ((w : ℚ) * 50 / 60000) * 20) := by
  exact ⟨by rw [tickAcc_closed], by rw [appliedScrollTop, tickAcc_closed]⟩

/-- C6: deactivating the prompter drops the running interval and discards the
accumulator; reactivating restarts from zero: from any state with the
prompter active, deactivate → reactivate → one tick applies the same scroll
offset as activate → one tick from the initial state. -/
theorem c6_reactivation_resets (s : PromSt) (d : PromDeps) (x : Nat) (t : String)
    (hs : s.deps.active = true) (hd : d.active = true) :
    (promStep s (PromEv.setDeps ⟨false, x, t⟩)).interval = none ∧
    (promRun s [PromEv.setDeps ⟨false, x, t⟩, PromEv.setDeps d,
        PromEv.tick]).scrollTop
      = (promRun promInit [PromEv.setDeps d, PromEv.tick]).scrollTop := by
  have hne1 : (⟨false, x, t⟩ : PromDeps) ≠ s.deps := by
    intro he
    rw [← he] at hs
    simp at hs
  have hne2 : d ≠ (⟨false, x, t⟩ : PromDeps) := by
    intro he
    rw [he] at hd
    simp at hd
  have hne3 : d ≠ (⟨false, defaultWpm, ""⟩ : PromDeps) := by
    intro he
    rw [he] at hd
    simp at hd
  constructor
  · simp [promStep, hne1, runPromEffect]
  · simp [promRun, promStep, promInit, hne1, hne2, hne3, runPromEffect, hd]

/-- C6 witness: a concrete active state with nonzero accumulated progress,
deactivated and reactivated at WPM 120. -/
theorem c6_reactivation_resets_witness :
    (⟨⟨true, 77, "x"⟩, some ⟨77, 5⟩, 123⟩ : PromSt).deps.active = true ∧
    (⟨true, 120, "y"⟩ : PromDeps).active = true ∧
    ((promStep (⟨⟨true, 77, "x"⟩, some ⟨77, 5⟩, 123⟩ : PromSt)
        (PromEv.setDeps ⟨false, 0, ""⟩)).interval = none ∧
     (promRun (⟨⟨true, 77, "x"⟩, some ⟨77, 5⟩, 123⟩ : PromSt)
        [PromEv.setDeps ⟨false, 0, ""⟩, PromEv.setDeps ⟨true, 120, "y"⟩,
         PromEv.tick]).scrollTop
       = (promRun promInit [PromEv.setDeps ⟨true, 120, "y"⟩,
           PromEv.tick]).scrollTop) :=
  ⟨rfl, rfl, c6_reactivation_resets _ _ 0 "" rfl rfl⟩

/-- C7 counterexample: the claim says a WPM change while the prompter is
active leaves the running tick's behavior and accumulated progress unchanged,
but because `wpm` is in the effect's dependency tuple, a change restarts the
interval at the new rate with a fresh accumulator: one tick at 120 then a
change to 60000 and one more tick applies offset 1000, whereas two ticks at
120 apply offset 4. -/
theorem c7_counterexample :
    (promRun promInit [PromEv.setDeps ⟨true, 120, ""⟩, PromEv.tick,
        PromEv.setDeps ⟨true, 60000, ""⟩, PromEv.tick]).scrollTop
      ≠ (promRun promInit [PromEv.setDeps ⟨true, 120, ""⟩, PromEv.tick,
        PromEv.tick]).scrollTop := by
  norm_num [promRun, promStep, promInit, runPromEffect, words_per_ms,
    truncToInt, defaultWpm]

/-- C7 amended: while the prompter is active, a change to the WPM value or the
script re-runs the effect immediately (they are in its dependency tuple): the
running interval is dropped and a fresh one starts, capturing the new WPM with
the accumulator reset to zero; the applied scroll position is retained until
the next tick. The new value thus takes effect at once, not on the next
activation cycle. -/
theorem c7_deps_change_restarts (s : PromSt) (d : PromDeps)
    (hne : d ≠ s.deps) (hact : d.active = true) :
    promStep s (PromEv.setDeps d) = ⟨d, some ⟨d.wpm, 0⟩, s.scrollTop⟩ := by
  simp [promStep, hne, runPromEffect, hact]

/-- C7 witness: a WPM change from 120 to 90 while active, with accumulated
progress 5, restarts the interval at 90 with accumulator 0. -/
theorem c7_deps_change_restarts_witness :
    ((⟨true, 90, ""⟩ : PromDeps)
        ≠ (⟨⟨true, 120, ""⟩, some ⟨120, 5⟩, 7⟩ : PromSt).deps) ∧
    (⟨true, 90, ""⟩ : PromDeps).active = true ∧
    promStep (⟨⟨true, 120, ""⟩, some ⟨120, 5⟩, 7⟩ : PromSt)
        (PromEv.setDeps ⟨true, 90, ""⟩)
      = ⟨⟨true, 90, ""⟩, some ⟨90, 0⟩, 7⟩ :=
  ⟨by decide, rfl, c7_deps_change_restarts _ _ (by decide) rfl⟩

/-- C8 counterexample: the claim says device errors are caught at the handler
boundary, but `onclick_start` calls `rec.start().unwrap()`: when the recorder
handle exists and the environment returns an error, the handler panics. -/
theorem c8_counterexample :
    onclick_start_run ⟨true, RecordingStatus.Idle, [], none, DevState.inactive⟩
        (Except.error JsErr.exn)
      = Except.error Panic.panicked := rfl

/-- C8 amended: stream-acquisition errors are caught and only logged, and a
blob-construction failure merely skips the merge; but errors returned by
`rec.start()`, `rec.pause()`, `rec.stop()` and by
`Url::create_object_url_with_blob` are unwrapped, so they propagate out of the
click handlers as panics. -/
theorem c8_error_policy (s : SessSt) (e : JsErr) (hrec : s.recorder = true)
    (hidle : s.status = RecordingStatus.Idle) :
    init_recorder_err s e = Except.ok s ∧
    onclick_start_run s (Except.error e) = Except.error Panic.panicked ∧
    onclick_pause_run s (Except.error e) = Except.error Panic.panicked ∧
    onclick_stop_run s (Except.error e) (Except.ok []) (Except.ok [])
      = Except.error Panic.panicked ∧
    onclick_stop_run s (Except.ok ()) (Except.error e) (Except.ok [])
      = Except.ok s ∧
    onclick_stop_run s (Except.ok ()) (Except.ok []) (Except.error e)
      = Except.error Panic.panicked := by
  refine ⟨rfl, ?_, ?_, ?_, ?_, ?_⟩ <;>
    simp [onclick_start_run, onclick_pause_run, onclick_stop_run, hrec, hidle]

/-- C8 witness: the policy evaluated at a concrete idle state with a recorder
handle. -/
theorem c8_error_policy_witness :
    (⟨true, RecordingStatus.Idle, [], none, DevState.inactive⟩ : SessSt).recorder
        = true ∧
    onclick_pause_run
        (⟨true, RecordingStatus.Idle, [], none, DevState.inactive⟩ : SessSt)
        (Except.error JsErr.exn)
      = Except.error Panic.panicked :=
  ⟨rfl,
   (c8_error_policy ⟨true, RecordingStatus.Idle, [], none, DevState.inactive⟩
      JsErr.exn rfl rfl).2.2.1⟩

end BornEd
